import Mathlib

/-!
Shallow embedding of the flora2influx core (Go) for specification checking.

Source files embedded:
- `src/device/device.go`: `Discover`, `Readings`, `Device.FetchReadings`,
  `decodeFirmwareData`, `decodeSensorData`
- `src/main.go`: the poll-tick loop body of `discoverAndRun`

Bytes are modelled as `Nat` (values below 256 where relevant); Go's
`float64` temperature (`float64(t) / 10`) is modelled as exact rational
arithmetic (`ℚ`), which is faithful at the one-decimal precision the
protocol uses. Go's `binary.Read` on a `bytes.Buffer` consumes up to the
requested number of bytes and leaves the destination variable untouched
(hence still zero-valued) when the buffer is too short; `Buffer.Next n`
skips up to `n` bytes. Both behaviours are modelled by `readLE` below.
-/

namespace Flora

/-- Little-endian value of a byte list (`encoding/binary` LittleEndian). -/
def leVal : List Nat → Nat
  | [] => 0
  | b :: rest => b + 256 * leVal rest

/-- Read a `k`-byte little-endian integer from the buffer, with Go
`binary.Read`-on-`bytes.Buffer` semantics: when fewer than `k` bytes remain,
the read fails (`none`), the destination keeps its previous (zero) value,
and the partial bytes are still consumed from the buffer. -/
def readLE (k : Nat) (buf : List Nat) : Option Nat × List Nat :=
  if k ≤ buf.length then (some (leVal (buf.take k)), buf.drop k) else (none, [])

/-- Reinterpret a 16-bit unsigned value as Go `int16` (two's complement). -/
def toInt16 (n : Nat) : Int :=
  if n < 32768 then (n : Int) else (n : Int) - 65536

/-- Go strings are byte sequences; each byte becomes one `Char`. -/
def bytesToString (bs : List Nat) : String :=
  String.mk (bs.map Char.ofNat)

/-- Go's `<` on strings, byte-wise lexicographic. Characters produced by
`bytesToString` carry exactly one byte each, so comparing their codepoints
is Go's byte comparison. -/
def goLess : List Char → List Char → Bool
  | [], [] => false
  | [], _ :: _ => true
  | _ :: _, [] => false
  | a :: as, b :: bs =>
    if a.toNat < b.toNat then true
    else if b.toNat < a.toNat then false
    else goLess as bs

/-- `a < b` for Go strings (so Go's `v > "2.6.6"` is
`goStringLess "2.6.6" v = true`). -/
def goStringLess (a b : String) : Bool := goLess a.data b.data

/-- `Readings` from `src/device/device.go`. `Temperature` (Go `float64`) is
modelled as `ℚ`. -/
structure Readings where
  FirmwareVersion : String
  BatteryLevel : Nat
  Temperature : ℚ
  Moisture : Nat
  Light : Nat
  Conductivity : Nat
deriving DecidableEq

/-- The zero value `&Readings{}` allocated at the start of a fetch. -/
def emptyReadings : Readings :=
  { FirmwareVersion := "", BatteryLevel := 0, Temperature := 0,
    Moisture := 0, Light := 0, Conductivity := 0 }

/-- `decodeFirmwareData` from `src/device/device.go`:
reads one byte as the battery level, skips one byte, and takes the whole
rest of the buffer as the firmware version string. There is no length
check and no error return. -/
def decodeFirmwareData (data : List Nat) (rd : Readings) : Readings :=
  let r1 := readLE 1 data
  let batt := r1.1.getD 0
  let rd1 := { rd with BatteryLevel := batt }
  let buf := r1.2.drop 1
  { rd1 with FirmwareVersion := bytesToString buf }

/-- `decodeSensorData` from `src/device/device.go`:
layout `TT TT ?? LL LL ?? ?? MM CC CC`; reads `int16` temperature, skips 1,
reads `uint16` light, skips 2, reads `uint8` moisture, reads `uint16`
conductivity. There is no length check and no error return; failed reads
leave the (zero-initialised) local variables at 0. -/
def decodeSensorData (data : List Nat) (rd : Readings) : Readings :=
  let r1 := readLE 2 data
  let t : Int := toInt16 (r1.1.getD 0)
  let rd1 := { rd with Temperature := (t : ℚ) / 10 }
  let p1 := r1.2.drop 1
  let r2 := readLE 2 p1
  let rd2 := { rd1 with Light := r2.1.getD 0 }
  let p2 := r2.2.drop 2
  let r3 := readLE 1 p2
  let rd3 := { rd2 with Moisture := r3.1.getD 0 }
  let r4 := readLE 2 r3.2
  { rd3 with Conductivity := r4.1.getD 0 }

/-- The firmware-version threshold `"2.6.6"` of `Device.FetchReadings`. -/
def versionThreshold : String := "2.6.6"

/-- One possible behaviour of the GATT transport during a
`Device.FetchReadings` session: whether each discovery step succeeds, which
of the three characteristics (VHandles 0x33, 0x38, 0x35) the flora service
exposes, and the outcome of each read/write. `none` on a read means a
transport error. -/
structure Transport where
  servicesOk : Bool
  floraServicePresent : Bool
  charDiscoveryOk : Bool
  hasFirmwareChar : Bool
  hasRealtimeChar : Bool
  hasReadingsChar : Bool
  firmwareRead : Option (List Nat)
  realtimeWriteOk : Bool
  sensorRead : Option (List Nat)
deriving DecidableEq

/-- Characteristic-level transport operations a session issues, in order. -/
inductive Event where
  | readFirmware : Event
  | writeRealtime : List Nat → Event
  | readSensor : Event
deriving DecidableEq

/-- Result of one `FetchReadings` session: the `out` pointer, whether
`errOut` was set, and the ordered trace of characteristic operations. -/
structure FetchResult where
  readings : Option Readings
  errSet : Bool
  trace : List Event
deriving DecidableEq

/-- Tail of `Device.FetchReadings` from the readings-characteristic check
onward: fail if the characteristic is missing, otherwise issue the long
read and decode into `rd` on success. -/
def finishFetch (tr : Transport) (rd : Readings) (cReadings : Bool) (t : List Event) : FetchResult :=
  if cReadings = false then ⟨none, true, t⟩
  else
    match tr.sensorRead with
    | none => ⟨none, true, t ++ [Event.readSensor]⟩
    | some data => ⟨some (decodeSensorData data rd), false, t ++ [Event.readSensor]⟩

/-- `Device.FetchReadings` from `src/device/device.go`, as a function of the
transport behaviour. Mirrors the connected-handler control flow: service
discovery (note: its failure path returns without setting `errOut`),
characteristic discovery inside the flora service, the mandatory firmware
read, the firmware-version-gated realtime-mode write of `[0xa0, 0xaf]`, and
the sensor read. -/
def FetchReadings (tr : Transport) : FetchResult :=
  if tr.servicesOk = false then ⟨none, false, []⟩
  else if tr.floraServicePresent = true ∧ tr.charDiscoveryOk = false then ⟨none, true, []⟩
  else
    let found := tr.floraServicePresent && tr.charDiscoveryOk
    let cFirmware := found && tr.hasFirmwareChar
    let cRealtime := found && tr.hasRealtimeChar
    let cReadings := found && tr.hasReadingsChar
    if cFirmware = false then ⟨none, true, []⟩
    else
      match tr.firmwareRead with
      | none => ⟨none, true, [Event.readFirmware]⟩
      | some fwData =>
        let rd := decodeFirmwareData fwData emptyReadings
        if goStringLess versionThreshold rd.FirmwareVersion = true then
          if cRealtime = false then ⟨none, true, [Event.readFirmware]⟩
          else if tr.realtimeWriteOk = false then
            ⟨none, true, [Event.readFirmware, Event.writeRealtime [0xa0, 0xaf]]⟩
          else
            finishFetch tr rd cReadings [Event.readFirmware, Event.writeRealtime [0xa0, 0xaf]]
        else
          finishFetch tr rd cReadings [Event.readFirmware]

/-- `Config` from `src/device/config.go`. -/
structure Config where
  Alias : String
  Ignore : Bool
deriving DecidableEq

/-- One advertisement delivered to the `PeripheralDiscovered` handler:
the peripheral's ID (MAC) and advertised name. -/
structure Advertisement where
  id : String
  name : String
deriving DecidableEq

/-- A roster entry as built by `Discover` (transport handle and logger
omitted). -/
structure Device where
  id : String
  aliasName : String
deriving DecidableEq

/-- The keys of `floraDeviceNames` from `src/device/device.go`. -/
def floraDeviceNames : List String := ["Flower care", "Flower mate"]

/-- Body of the `PeripheralDiscovered` handler of `Discover`: append a
device for a matching advertisement unless its config says to ignore it. -/
def discoverStep (confMap : String → Option Config) (out : List Device) (a : Advertisement) : List Device :=
  if floraDeviceNames.contains a.name then
    match confMap a.id with
    | some conf =>
      if conf.Ignore then out
      else if conf.Alias ≠ "" then out ++ [{ id := a.id, aliasName := conf.Alias }]
      else out ++ [{ id := a.id, aliasName := "" }]
    | none => out ++ [{ id := a.id, aliasName := "" }]
  else out

/-- `Discover` from `src/device/device.go`, as a function of the
advertisements seen during the scan window: the handler fires once per
advertisement, in order, accumulating the roster. -/
def Discover (advs : List Advertisement) (confMap : String → Option Config) : List Device :=
  advs.foldl (discoverStep confMap) []

/-- One roster member during a poll tick of `discoverAndRun`
(`src/main.go`), together with the outcome its `FetchReadings` call will
produce this tick (`none` = error). -/
structure SimDevice where
  id : String
  aliasName : String
  fetchResult : Option Readings
deriving DecidableEq

/-- Observable actions of the poll-tick loop body. `sinkWrite` is the
InfluxDB point write; in `src/main.go` the whole batch/write block is
commented out, so the loop body can never emit it. -/
inductive TickEvent where
  | fetched : String → TickEvent
  | errorLogged : String → TickEvent
  | readingsLogged : String → TickEvent
  | sinkWrite : String → String → String → TickEvent
deriving DecidableEq

/-- One iteration of `for _, device := range devices` in `discoverAndRun`:
fetch, log-and-continue on error, log the readings on success. The InfluxDB
write path (lines 44-52, 61-73 and 75-83 of `src/main.go`) is commented
out, so no `sinkWrite` is produced. -/
def pollDevice (d : SimDevice) : List TickEvent :=
  match d.fetchResult with
  | none => [TickEvent.fetched d.id, TickEvent.errorLogged d.id]
  | some _ => [TickEvent.fetched d.id, TickEvent.readingsLogged d.id]

/-- One full poll tick of `discoverAndRun`: every roster device in order. -/
def pollTick : List SimDevice → List TickEvent
  | [] => []
  | d :: rest => pollDevice d ++ pollTick rest

/-- The devices on which `FetchReadings` was invoked during a tick. -/
def polledIds (events : List TickEvent) : List String :=
  events.filterMap fun e =>
    match e with
    | TickEvent.fetched i => some i
    | _ => none

/-- Predicate selecting sink (InfluxDB) writes among tick events. -/
def isSinkWrite : TickEvent → Bool
  | TickEvent.sinkWrite _ _ _ => true
  | _ => false

end Flora

namespace Flora

/-!  Helper lemmas shared by the claim theorems. -/

/-- Evaluation of `decodeSensorData` on a full 10-byte record. -/
theorem decodeSensorData_ten (b0 b1 b2 b3 b4 b5 b6 b7 b8 b9 : Nat) (rd : Readings) :
    decodeSensorData [b0, b1, b2, b3, b4, b5, b6, b7, b8, b9] rd =
      { rd with Temperature := (toInt16 (b0 + 256 * b1) : ℚ) / 10,
                Light := b3 + 256 * b4, Moisture := b7,
                Conductivity := b8 + 256 * b9 } := by
  simp [decodeSensorData, readLE, leVal]

/-- Evaluation of `decodeFirmwareData` on a payload of at least two bytes. -/
theorem decodeFirmwareData_cons (a b : Nat) (rest : List Nat) (rd : Readings) :
    decodeFirmwareData (a :: b :: rest) rd =
      { rd with BatteryLevel := a, FirmwareVersion := bytesToString rest } := by
  simp [decodeFirmwareData, readLE, leVal]

end Flora

namespace Flora

/-- C1: for every well-formed 10-byte input, `decodeSensorData` reads the
little-endian record `[temp:i16][rsvd:1][light:u16][rsvd:2][moisture:u8]`
`[conductivity:u16]`, with temperature = temp/10 °C and the other fields
verbatim; in particular the example bytes decode to 20.6 °C, light 400,
moisture 40, conductivity 232. -/
theorem C1_sensor_decode_layout :
    (∀ (b0 b1 b2 b3 b4 b5 b6 b7 b8 b9 : Nat) (rd : Readings),
      decodeSensorData [b0, b1, b2, b3, b4, b5, b6, b7, b8, b9] rd =
        { rd with Temperature := (toInt16 (b0 + 256 * b1) : ℚ) / 10,
                  Light := b3 + 256 * b4, Moisture := b7,
                  Conductivity := b8 + 256 * b9 }) ∧
    decodeSensorData [0xCE, 0x00, 0x00, 0x90, 0x01, 0x00, 0x00, 0x28, 0xE8, 0x00] emptyReadings =
      { emptyReadings with Temperature := 20.6, Light := 400, Moisture := 40,
                           Conductivity := 232 } := by
  refine ⟨decodeSensorData_ten, ?_⟩
  norm_num [decodeSensorData, readLE, leVal, toInt16, emptyReadings]

/-- C8: for every input of at least 2 bytes, `decodeFirmwareData` sets the
battery level to byte 0 and the firmware version to the text of the bytes
from offset 2 on; in particular `[64, 0, '2', '.', '6', '.', '6']` decodes
to battery 64 and version "2.6.6". -/
theorem C8_firmware_decode_layout :
    (∀ (a b : Nat) (rest : List Nat) (rd : Readings),
      decodeFirmwareData (a :: b :: rest) rd =
        { rd with BatteryLevel := a, FirmwareVersion := bytesToString rest }) ∧
    decodeFirmwareData [64, 0, 0x32, 0x2E, 0x36, 0x2E, 0x36] emptyReadings =
      { emptyReadings with BatteryLevel := 64, FirmwareVersion := "2.6.6" } := by
  exact ⟨decodeFirmwareData_cons, by decide⟩

/-- C10: the two decoders touch disjoint fields of the shared `Readings`
record: `decodeSensorData` never changes `FirmwareVersion`/`BatteryLevel`,
`decodeFirmwareData` never changes the four sensor fields, and composing
firmware decode then sensor decode keeps the firmware/battery results. -/
theorem C10_decoders_disjoint_fields (sData fData : List Nat) (rd : Readings) :
    ((decodeSensorData sData rd).FirmwareVersion = rd.FirmwareVersion ∧
     (decodeSensorData sData rd).BatteryLevel = rd.BatteryLevel) ∧
    ((decodeFirmwareData fData rd).Temperature = rd.Temperature ∧
     (decodeFirmwareData fData rd).Light = rd.Light ∧
     (decodeFirmwareData fData rd).Moisture = rd.Moisture ∧
     (decodeFirmwareData fData rd).Conductivity = rd.Conductivity) ∧
    ((decodeSensorData sData (decodeFirmwareData fData rd)).FirmwareVersion =
       (decodeFirmwareData fData rd).FirmwareVersion ∧
     (decodeSensorData sData (decodeFirmwareData fData rd)).BatteryLevel =
       (decodeFirmwareData fData rd).BatteryLevel) :=
  ⟨⟨rfl, rfl⟩, ⟨rfl, rfl, rfl, rfl⟩, rfl, rfl⟩

/-- C2 counterexample: on the empty payload (shorter than 2 and than 10
bytes) both decoders return an ordinary `Readings` value — the zero value —
and no error of any kind: the source decoders have no error return at all,
so neither yields `MalformedPayload`. -/
theorem C2_counterexample :
    decodeFirmwareData [] emptyReadings = emptyReadings ∧
    decodeSensorData [] emptyReadings = emptyReadings := by
  constructor
  · decide
  · norm_num [decodeSensorData, readLE, toInt16, emptyReadings]

/-- C2 as amended: the decoders are total and never signal an error; a
firmware payload shorter than 2 bytes decodes to battery = byte 0 (0 when
absent) and version "", and a sensor payload shorter than the full record
zero-fills each field whose bytes are missing (temperature below 2 bytes,
light below 5, moisture below 8, conductivity below 10). -/
theorem C2_short_payload_zero_fill (data : List Nat) (rd : Readings) :
    (data.length < 2 →
      decodeFirmwareData data rd =
        { rd with BatteryLevel := data.headD 0, FirmwareVersion := "" }) ∧
    (data.length < 2 → (decodeSensorData data rd).Temperature = 0) ∧
    (data.length < 5 → (decodeSensorData data rd).Light = 0) ∧
    (data.length < 8 → (decodeSensorData data rd).Moisture = 0) ∧
    (data.length < 10 → (decodeSensorData data rd).Conductivity = 0) := by
  rcases data with _ | ⟨a, _ | ⟨b, _ | ⟨c, _ | ⟨d, _ | ⟨e, _ | ⟨f, _ | ⟨g, _ | ⟨h, _ | ⟨i, _ | ⟨j, rest⟩⟩⟩⟩⟩⟩⟩⟩⟩⟩ <;>
    refine ⟨?_, ?_, ?_, ?_, ?_⟩ <;> intro hlen <;>
    simp_all [decodeSensorData, decodeFirmwareData, readLE, leVal, toInt16,
      bytesToString] <;> omega

/-- C2 witness: concrete short payloads exercising the amended theorem. -/
theorem C2_short_payload_zero_fill_witness :
    decodeFirmwareData [7] emptyReadings =
      { emptyReadings with BatteryLevel := [7].headD 0, FirmwareVersion := "" } ∧
    (decodeSensorData [1, 2, 3, 4, 5, 6, 7, 8, 9] emptyReadings).Conductivity = 0 :=
  ⟨(C2_short_payload_zero_fill [7] emptyReadings).1 (by decide),
   (C2_short_payload_zero_fill [1, 2, 3, 4, 5, 6, 7, 8, 9] emptyReadings).2.2.2.2 (by decide)⟩

end Flora

namespace Flora

/-- Re-encoding of the decoded numeric sensor fields, following the claim:
light, moisture and conductivity verbatim (as little-endian u16/u8), the
temperature multiplied back by 10 as a signed (two's complement) 16-bit
little-endian integer; the reserved bytes `r2`, `r5`, `r6` are passed
through. -/
def encodeSensorData (t : Int) (l m c : Nat) (r2 r5 r6 : Nat) : List Nat :=
  let tn := (t % 65536).toNat
  [tn % 256, tn / 256, r2, l % 256, l / 256, r5, r6, m % 256, c % 256, c / 256]

/-- C9: for every valid 10-byte sensor payload, re-encoding the decoded
numeric fields (temperature ×10 as a signed 16-bit integer; the others
verbatim) reproduces the original bytes exactly, reserved bytes passed
through — decode→re-encode is lossless for the integer fields and exact to
one decimal place (temperature ×10 is recovered exactly). -/
theorem C9_decode_reencode_roundtrip (b0 b1 b2 b3 b4 b5 b6 b7 b8 b9 : Nat)
    (hb : b0 < 256 ∧ b1 < 256 ∧ b2 < 256 ∧ b3 < 256 ∧ b4 < 256 ∧
          b5 < 256 ∧ b6 < 256 ∧ b7 < 256 ∧ b8 < 256 ∧ b9 < 256) :
    ∃ t : Int,
      (decodeSensorData [b0, b1, b2, b3, b4, b5, b6, b7, b8, b9] emptyReadings).Temperature * 10 =
        (t : ℚ) ∧
      encodeSensorData t
          (decodeSensorData [b0, b1, b2, b3, b4, b5, b6, b7, b8, b9] emptyReadings).Light
          (decodeSensorData [b0, b1, b2, b3, b4, b5, b6, b7, b8, b9] emptyReadings).Moisture
          (decodeSensorData [b0, b1, b2, b3, b4, b5, b6, b7, b8, b9] emptyReadings).Conductivity
          b2 b5 b6 =
        [b0, b1, b2, b3, b4, b5, b6, b7, b8, b9] := by
  obtain ⟨h0, h1, h2, h3, h4, h5, h6, h7, h8, h9⟩ := hb
  refine ⟨toInt16 (b0 + 256 * b1), ?_, ?_⟩
  · rw [decodeSensorData_ten]
    exact div_mul_cancel₀ _ (by norm_num)
  · rw [decodeSensorData_ten]
    simp only [encodeSensorData, toInt16]
    split_ifs with ht <;> simp only [List.cons.injEq, and_true, true_and] <;> omega

/-- C9 witness: the roundtrip at the example payload. -/
theorem C9_decode_reencode_roundtrip_witness :
    ∃ t : Int,
      (decodeSensorData [0xCE, 0x00, 0x00, 0x90, 0x01, 0x00, 0x00, 0x28, 0xE8, 0x00]
          emptyReadings).Temperature * 10 = (t : ℚ) ∧
      encodeSensorData t
          (decodeSensorData [0xCE, 0x00, 0x00, 0x90, 0x01, 0x00, 0x00, 0x28, 0xE8, 0x00]
            emptyReadings).Light
          (decodeSensorData [0xCE, 0x00, 0x00, 0x90, 0x01, 0x00, 0x00, 0x28, 0xE8, 0x00]
            emptyReadings).Moisture
          (decodeSensorData [0xCE, 0x00, 0x00, 0x90, 0x01, 0x00, 0x00, 0x28, 0xE8, 0x00]
            emptyReadings).Conductivity
          0x00 0x00 0x00 =
        [0xCE, 0x00, 0x00, 0x90, 0x01, 0x00, 0x00, 0x28, 0xE8, 0x00] :=
  C9_decode_reencode_roundtrip 0xCE 0x00 0x00 0x90 0x01 0x00 0x00 0x28 0xE8 0x00 (by decide)

end Flora

namespace Flora

/-- If the fetch tail produced a `Readings`, the sensor read succeeded and
the result is the decode of the returned payload into `rd`. -/
theorem finishFetch_readings_eq (tr : Transport) (rd : Readings) (c : Bool)
    (t : List Event) (rd' : Readings)
    (h : (finishFetch tr rd c t).readings = some rd') :
    ∃ sData, tr.sensorRead = some sData ∧ rd' = decodeSensorData sData rd := by
  unfold finishFetch at h
  split at h
  · exact absurd h (by simp)
  · rcases hsr : tr.sensorRead with _ | sData
    · rw [hsr] at h
      simp at h
    · rw [hsr] at h
      simp at h
      exact ⟨sData, rfl, h.symm⟩

/-- C3 as amended: `FetchReadings` returns either no `Readings` at all, or
the value obtained by running both decoders on the payloads the transport
returned — but the payloads themselves may be short, in which case the
decoders zero-fill instead of failing, so the returned `Readings` need not
have every field decoded from payload bytes. -/
theorem C3_readings_from_both_decodes (tr : Transport) (rd : Readings)
    (h : (FetchReadings tr).readings = some rd) :
    ∃ fwData sData, tr.firmwareRead = some fwData ∧ tr.sensorRead = some sData ∧
      rd = decodeSensorData sData (decodeFirmwareData fwData emptyReadings) := by
  unfold FetchReadings at h
  split at h
  · exact absurd h (by simp)
  split at h
  · exact absurd h (by simp)
  dsimp only at h
  split at h
  · exact absurd h (by simp)
  split at h
  next heq => exact absurd h (by simp)
  next fwData heq =>
    split at h
    · split at h
      · exact absurd h (by simp)
      split at h
      · exact absurd h (by simp)
      · obtain ⟨sData, hs, hrd⟩ := finishFetch_readings_eq _ _ _ _ _ h
        exact ⟨fwData, sData, heq, hs, hrd⟩
    · obtain ⟨sData, hs, hrd⟩ := finishFetch_readings_eq _ _ _ _ _ h
      exact ⟨fwData, sData, heq, hs, hrd⟩

end Flora

namespace Flora

/-- A transport whose session succeeds end-to-end but whose sensor read
returns an empty payload. -/
def trShortSensor : Transport :=
  { servicesOk := true, floraServicePresent := true, charDiscoveryOk := true,
    hasFirmwareChar := true, hasRealtimeChar := true, hasReadingsChar := true,
    firmwareRead := some [64, 0, 0x32, 0x2E, 0x36, 0x2E, 0x36],
    realtimeWriteOk := true, sensorRead := some [] }

/-- C3 counterexample: with a 0-byte sensor payload (shorter than the
10-byte record, so none of the four sensor fields can be decoded from it),
`FetchReadings` still returns a `Readings` — with zero-filled sensor
fields — instead of returning nothing; a partially-decoded value is
forwarded. -/
theorem C3_counterexample :
    (FetchReadings trShortSensor).readings =
      some { emptyReadings with FirmwareVersion := "2.6.6", BatteryLevel := 64 } ∧
    trShortSensor.sensorRead = some [] ∧ ([] : List Nat).length < 10 := by
  refine ⟨?_, rfl, by norm_num⟩
  have h1 : (FetchReadings trShortSensor).readings =
      some (decodeSensorData []
        (decodeFirmwareData [64, 0, 0x32, 0x2E, 0x36, 0x2E, 0x36] emptyReadings)) := rfl
  rw [h1]
  norm_num [decodeSensorData, decodeFirmwareData, readLE, toInt16, emptyReadings]
  decide

/-- A transport for a fully successful session on firmware "3.0.0". -/
def trFullHigh : Transport :=
  { servicesOk := true, floraServicePresent := true, charDiscoveryOk := true,
    hasFirmwareChar := true, hasRealtimeChar := true, hasReadingsChar := true,
    firmwareRead := some [99, 0, 0x33, 0x2E, 0x30, 0x2E, 0x30],
    realtimeWriteOk := true,
    sensorRead := some [0xCE, 0x00, 0x00, 0x90, 0x01, 0x00, 0x00, 0x28, 0xE8, 0x00] }

/-- C3 witness: a fully successful session, where the returned value is
exactly the composition of the two decoders on the returned payloads. -/
theorem C3_readings_from_both_decodes_witness :
    ∃ fwData sData,
      trFullHigh.firmwareRead = some fwData ∧ trFullHigh.sensorRead = some sData ∧
      decodeSensorData [0xCE, 0x00, 0x00, 0x90, 0x01, 0x00, 0x00, 0x28, 0xE8, 0x00]
          (decodeFirmwareData [99, 0, 0x33, 0x2E, 0x30, 0x2E, 0x30] emptyReadings) =
        decodeSensorData sData (decodeFirmwareData fwData emptyReadings) :=
  C3_readings_from_both_decodes trFullHigh
    (decodeSensorData [0xCE, 0x00, 0x00, 0x90, 0x01, 0x00, 0x00, 0x28, 0xE8, 0x00]
      (decodeFirmwareData [99, 0, 0x33, 0x2E, 0x30, 0x2E, 0x30] emptyReadings)) rfl

/-- Number of realtime-mode-enable writes (`[0xa0, 0xaf]` to VHandle 0x33)
a session issued. -/
def realtimeWrites (r : FetchResult) : Nat :=
  r.trace.count (Event.writeRealtime [0xa0, 0xaf])

/-- The realtime-mode-enable write occurs strictly before any sensor read
in the session's trace (vacuously satisfied when no sensor read occurs,
since then `indexOf` is the trace length). -/
def writeBeforeSensorRead (r : FetchResult) : Prop :=
  r.trace.indexOf (Event.writeRealtime [0xa0, 0xaf]) < r.trace.indexOf Event.readSensor

/-- A transport on firmware "3.0.0" where the realtime-mode characteristic
was not discovered. -/
def trMissingRealtime : Transport :=
  { servicesOk := true, floraServicePresent := true, charDiscoveryOk := true,
    hasFirmwareChar := true, hasRealtimeChar := false, hasReadingsChar := true,
    firmwareRead := some [99, 0, 0x33, 0x2E, 0x30, 0x2E, 0x30],
    realtimeWriteOk := true,
    sensorRead := some [0xCE, 0x00, 0x00, 0x90, 0x01, 0x00, 0x00, 0x28, 0xE8, 0x00] }

/-- C4 counterexample: a session decodes firmware version "3.0.0", which is
strictly greater than "2.6.6", yet the realtime-mode-enable write is issued
zero times (not exactly once): the realtime characteristic is missing, so
the session aborts with an error before writing. -/
theorem C4_counterexample :
    trMissingRealtime.firmwareRead = some [99, 0, 0x33, 0x2E, 0x30, 0x2E, 0x30] ∧
    (decodeFirmwareData [99, 0, 0x33, 0x2E, 0x30, 0x2E, 0x30] emptyReadings).FirmwareVersion =
      "3.0.0" ∧
    goStringLess versionThreshold "3.0.0" = true ∧
    realtimeWrites (FetchReadings trMissingRealtime) = 0 := by
  decide

/-- C4 as amended: in every session whose firmware read succeeds, if the
decoded version compares (byte-wise lexicographically) less than or equal
to "2.6.6" the realtime-mode-enable write is never issued; if it compares
strictly greater and the realtime characteristic was not discovered, the
session errors out without issuing the write; if it compares strictly
greater and the session reached the firmware read with the realtime
characteristic discovered, the two-byte write is issued exactly once and
before any sensor read. -/
theorem C4_realtime_write_gating (tr : Transport) (fwData : List Nat)
    (hfw : tr.firmwareRead = some fwData) :
    (goStringLess versionThreshold
        (decodeFirmwareData fwData emptyReadings).FirmwareVersion = false →
      realtimeWrites (FetchReadings tr) = 0) ∧
    (goStringLess versionThreshold
        (decodeFirmwareData fwData emptyReadings).FirmwareVersion = true →
      tr.hasRealtimeChar = false →
      realtimeWrites (FetchReadings tr) = 0 ∧ (FetchReadings tr).readings = none) ∧
    (goStringLess versionThreshold
        (decodeFirmwareData fwData emptyReadings).FirmwareVersion = true →
      tr.servicesOk = true → tr.floraServicePresent = true → tr.charDiscoveryOk = true →
      tr.hasFirmwareChar = true → tr.hasRealtimeChar = true →
      realtimeWrites (FetchReadings tr) = 1 ∧ writeBeforeSensorRead (FetchReadings tr)) := by
  obtain ⟨so, fsp, cdo, hfc, hrc, hrdc, fwr, rwo, sr⟩ := tr
  simp only at hfw
  subst hfw
  refine ⟨?_, ?_, ?_⟩ <;> intros <;>
    cases so <;> cases fsp <;> cases cdo <;> cases hfc <;> cases hrc <;> cases hrdc <;>
    cases rwo <;> rcases sr with _ | sData <;>
    simp_all [FetchReadings, finishFetch, realtimeWrites, writeBeforeSensorRead]

/-- C4 witness: a fully successful session on firmware "3.0.0" issues the
write exactly once, before the sensor read. -/
theorem C4_realtime_write_gating_witness :
    realtimeWrites (FetchReadings trFullHigh) = 1 ∧
    writeBeforeSensorRead (FetchReadings trFullHigh) :=
  (C4_realtime_write_gating trFullHigh [99, 0, 0x33, 0x2E, 0x30, 0x2E, 0x30] rfl).2.2
    (by decide) rfl rfl rfl rfl rfl

end Flora

namespace Flora

/-- Any device appended by one `PeripheralDiscovered` handler invocation
carries the id of that advertisement. -/
theorem discoverStep_mem (confMap : String → Option Config) (out : List Device)
    (a : Advertisement) (d : Device) (hd : d ∈ discoverStep confMap out a) :
    d ∈ out ∨ d.id = a.id := by
  unfold discoverStep at hd
  split at hd
  · rcases hca : confMap a.id with _ | conf <;> rw [hca] at hd <;> dsimp only at hd
    · simp at hd
      rcases hd with hd | hd
      · exact Or.inl hd
      · right
        rw [hd]
    · split at hd
      · exact Or.inl hd
      · split at hd <;> simp at hd <;> rcases hd with hd | hd
        · exact Or.inl hd
        · right
          rw [hd]
        · exact Or.inl hd
        · right
          rw [hd]
  · exact Or.inl hd

/-- If an advertisement's id maps to an ignored config, the handler leaves
the roster unchanged. -/
theorem discoverStep_ignored (confMap : String → Option Config) (out : List Device)
    (a : Advertisement) (c : Config) (hc : confMap a.id = some c)
    (hig : c.Ignore = true) : discoverStep confMap out a = out := by
  unfold discoverStep
  rw [hc]
  split
  · simp [hig]
  · rfl

/-- Roster-accumulation invariant for the scan fold of `Discover`. -/
theorem discover_foldl_not_ignored (confMap : String → Option Config) (mac : String)
    (c : Config) (hc : confMap mac = some c) (hig : c.Ignore = true) :
    ∀ (advs : List Advertisement) (init : List Device),
      (∀ d ∈ init, d.id ≠ mac) →
      ∀ d ∈ advs.foldl (discoverStep confMap) init, d.id ≠ mac := by
  intro advs
  induction advs with
  | nil => intro init hinit d hd; exact hinit d hd
  | cons a rest ih =>
    intro init hinit d hd
    refine ih (discoverStep confMap init a) ?_ d hd
    intro e he
    by_cases ha : a.id = mac
    · rw [discoverStep_ignored confMap init a c (by rw [ha]; exact hc) hig] at he
      exact hinit e he
    · rcases discoverStep_mem confMap init a e he with h | h
      · exact hinit e h
      · rw [h]
        exact ha

/-- C6: for every advertisement sequence and configuration mapping, a
device whose `Config` has `Ignore = true` never appears in the roster that
`Discover` returns, whether or not it is advertising (the scan timeout only
bounds which advertisements are seen, never re-adding an ignored one). -/
theorem C6_ignored_never_in_roster (advs : List Advertisement)
    (confMap : String → Option Config) (mac : String) (c : Config)
    (hc : confMap mac = some c) (hig : c.Ignore = true) :
    ∀ d ∈ Discover advs confMap, d.id ≠ mac :=
  discover_foldl_not_ignored confMap mac c hc hig advs [] (by intro d hd; simp at hd)

/-- Configuration used by the C6 witness: device "aa" is ignored. -/
def confMapW : String → Option Config := fun i =>
  if i = "aa" then some { Alias := "", Ignore := true } else none

/-- C6 witness: even though "aa" advertises a matching name, it is not in
the roster. -/
theorem C6_ignored_never_in_roster_witness :
    ({ id := "aa", aliasName := "" } : Device) ∉
      Discover [{ id := "aa", name := "Flower care" },
                { id := "bb", name := "Flower care" }] confMapW :=
  fun hmem =>
    C6_ignored_never_in_roster
      [{ id := "aa", name := "Flower care" }, { id := "bb", name := "Flower care" }]
      confMapW "aa" { Alias := "", Ignore := true } rfl rfl
      { id := "aa", aliasName := "" } hmem rfl

/-- C7: one poll tick invokes `FetchReadings` on every device of the
roster, in roster order, no matter which fetches fail: a failing fetch is
logged and the loop continues with the next device, so every device after a
failure is still polled in the same tick. -/
theorem C7_tick_polls_every_device (roster : List SimDevice) :
    polledIds (pollTick roster) = roster.map SimDevice.id := by
  induction roster with
  | nil => rfl
  | cons d rest ih =>
    rcases hd : d.fetchResult with _ | rd <;>
      simp [pollTick, pollDevice, polledIds, hd] <;>
      simpa [polledIds] using ih

/-- C5: the poll-tick loop of `discoverAndRun` never emits a sink
(InfluxDB) write, for any roster and any fetch outcomes — the entire batch
construction and `influxClient.Write` path in `src/main.go` is commented
out, contradicting the claim that each successful reading produces exactly
one tagged sink write. -/
theorem C5_no_sink_write_ever (roster : List SimDevice) :
    (pollTick roster).filter isSinkWrite = [] := by
  induction roster with
  | nil => rfl
  | cons d rest ih =>
    rcases hd : d.fetchResult with _ | rd <;>
      simp [pollTick, pollDevice, isSinkWrite, hd, ih]

end Flora
